import Mathlib

/-!
Verification of the Indy issuer layer (src/aries_cloudagent/issuer/indy.py).

The issuer is a thin orchestration layer over an external credential crypto
engine (libindy anoncreds), a wallet handle, and a tails blob store.  We embed
each issuer operation as a pure Lean function parameterised by the outcome of
the collaborator calls it makes (an `Except IndyError result` per engine
primitive).  Each embedded operation additionally returns the trace of
collaborator calls it performed, so that properties such as "no engine call is
made on a validation failure" are expressible.

Pieces of the repository that the issuer imports but whose sources are not in
scope (the attribute encoder from messaging.util, the IndyErrorHandler from
indy.error, and the default constants from issuer/base.py) are modelled from
the specification; each such definition carries a doc comment saying so.
-/

namespace IndyIssuer

/-- Engine failure codes (from indy.error.ErrorCode) that the issuer layer
recognises, plus an opaque constructor for every other code. -/
inductive ErrorCode where
  | CommonInvalidStructure
  | WalletItemNotFound
  | AnoncredsRevocationRegistryFullError
  | Other (n : Nat)
deriving DecidableEq, Repr

/-- An engine/wallet failure (indy.error.IndyError), identified by its code.
The distinguished exception class AnoncredsRevocationRegistryFullError is the
IndyError whose code is `ErrorCode.AnoncredsRevocationRegistryFullError`. -/
structure IndyError where
  code : ErrorCode
deriving DecidableEq, Repr

/-- The domain error taxonomy of issuer/base.py.  `IssuerError` carries the
collaborator failure attached with `raise ... from error` as its cause.
`IssuerRevocationRegistryFullError` is raised inside an except-block without
an explicit cause; Python implicit exception chaining still attaches the
caught engine failure as its context, which we record. -/
inductive IssuerErr where
  | IssuerError (message : String) (cause : Option IndyError)
  | IssuerRevocationRegistryFullError (message : String) (context : Option IndyError)
deriving DecidableEq, Repr

/-- What escapes an issuer operation: either a translated domain error, or an
engine failure that propagated past the issuer untranslated. -/
inductive RaisedError where
  | indy (error : IndyError)
  | issuer (error : IssuerErr)
deriving DecidableEq, Repr

/-- Modelled from the spec: IndyErrorHandler (indy/error.py, not in scope)
wraps an engine failure into the given domain error kind, always preserving
the original failure as the cause for diagnostics (spec section 4.5 (b)). -/
def wrap_error (message : String) (error : IndyError) : IssuerErr :=
  .IssuerError message (some error)

/-- The result of json.loads on an engine document: this layer treats parsed
documents as opaque, so we only re-materialise the text. -/
structure ParsedDoc where
  text : String
deriving DecidableEq, Repr

def jsonLoads (s : String) : ParsedDoc := ⟨s⟩

/-- Modelled from the spec: DEFAULT_SIGNATURE_TYPE from issuer/base.py (not in
scope); the scheme standard primary signature type, CL. -/
def DEFAULT_SIGNATURE_TYPE : String := "CL"

/-- Modelled from the spec: DEFAULT_CRED_DEF_TAG from issuer/base.py (not in
scope); the fixed sentinel tag used when no tag is given. -/
def DEFAULT_CRED_DEF_TAG : String := "default"

/-- Modelled from the spec: DEFAULT_ISSUANCE_TYPE from issuer/base.py (not in
scope); newly minted indices start valid by default. -/
def DEFAULT_ISSUANCE_TYPE : String := "ISSUANCE_BY_DEFAULT"

/-- Python `x or default` on an optional string argument: None and the empty
string are falsy and select the default. -/
def orDefault (x : Option String) (d : String) : String :=
  match x with
  | none => d
  | some s => if s = "" then d else s

/-! ### Attribute encoder

The issuer imports `encode` from messaging/util.py, which is not in scope, so
the encoder is modelled from the spec (section 4.1): take the canonical string
form of the raw value, return it as an integer when it parses as a base-10
integer within the signature scheme magnitude bound, and otherwise return the
SHA-256 digest of its UTF-8 bytes read as a big-endian unsigned integer.  Raw
attribute values are modelled by their canonical string form. -/

/-- Arithmetic truncated to 32 bits. -/
def w32 (n : Nat) : Nat := n % 4294967296

/-- Right rotation of a 32-bit word. -/
def rotr (k n : Nat) : Nat := w32 ((n >>> k) + ((n % 2 ^ k) <<< (32 - k)))

def sha256S0 (x : Nat) : Nat := rotr 7 x ^^^ rotr 18 x ^^^ (x >>> 3)

def sha256S1 (x : Nat) : Nat := rotr 17 x ^^^ rotr 19 x ^^^ (x >>> 10)

def sha256B0 (x : Nat) : Nat := rotr 2 x ^^^ rotr 13 x ^^^ rotr 22 x

def sha256B1 (x : Nat) : Nat := rotr 6 x ^^^ rotr 11 x ^^^ rotr 25 x

/-- The SHA-256 round constants. -/
def SHA256_K : List Nat :=
  [1116352408, 1899447441, 3049323471, 3921009573, 961987163,
   1508970993, 2453635748, 2870763221, 3624381080, 310598401,
   607225278, 1426881987, 1925078388, 2162078206, 2614888103,
   3248222580, 3835390401, 4022224774, 264347078, 604807628,
   770255983, 1249150122, 1555081692, 1996064986, 2554220882,
   2821834349, 2952996808, 3210313671, 3336571891, 3584528711,
   113926993, 338241895, 666307205, 773529912, 1294757372,
   1396182291, 1695183700, 1986661051, 2177026350, 2456956037,
   2730485921, 2820302411, 3259730800, 3345764771, 3516065817,
   3600352804, 4094571909, 275423344, 430227734, 506948616,
   659060556, 883997877, 958139571, 1322822218, 1537002063,
   1747873779, 1955562222, 2024104815, 2227730452, 2361852424,
   2428436474, 2756734187, 3204031479, 3329325298]

/-- The SHA-256 initial hash state. -/
def SHA256_H0 : List Nat :=
  [1779033703, 3144134277, 1013904242, 2773480762,
   1359893119, 2600822924, 528734635, 1541459225]

/-- Big-endian bytes of `n`, `k` bytes wide. -/
def toBytesBE (k n : Nat) : List Nat :=
  (List.range k).map (fun i => (n >>> (8 * (k - 1 - i))) % 256)

/-- SHA-256 padding: append 0x80, zero bytes to 56 mod 64, then the bit
length as a 64-bit big-endian integer. -/
def padMessage (msg : List Nat) : List Nat :=
  let L := msg.length
  msg ++ [128] ++ List.replicate ((119 - L % 64) % 64) 0 ++ toBytesBE 8 (8 * L)

/-- Group bytes into big-endian 32-bit words. -/
def bytesToWordsBE : List Nat → List Nat
  | a :: b :: c :: d :: rest =>
      ((a <<< 24) + (b <<< 16) + (c <<< 8) + d) :: bytesToWordsBE rest
  | _ => []

/-- Extend a 16-word block to the 64-word message schedule. -/
def extendW (w : Array Nat) : Array Nat :=
  if hlt : w.size < 64 then
    extendW (w.push (w32 (sha256S1 (w.get! (w.size - 2)) + w.get! (w.size - 7)
      + sha256S0 (w.get! (w.size - 15)) + w.get! (w.size - 16))))
  else w
termination_by 64 - w.size
decreasing_by simp [Array.size_push]; omega

/-- One SHA-256 compression round on the 8-word working state. -/
def sha256Round (k wt : Nat) (s : List Nat) : List Nat :=
  match s with
  | [a, b, c, d, e, f, g, h] =>
    let ch := (e &&& f) ^^^ ((e ^^^ 4294967295) &&& g)
    let t1 := w32 (h + sha256B1 e + ch + k + wt)
    let maj := (a &&& b) ^^^ (a &&& c) ^^^ (b &&& c)
    let t2 := w32 (sha256B0 a + maj)
    [w32 (t1 + t2), a, b, c, w32 (d + t1), e, f, g]
  | s => s

/-- Compress one 16-word block into the hash state. -/
def processBlock (h : List Nat) (block : List Nat) : List Nat :=
  let W := (extendW block.toArray).toList
  let s := (SHA256_K.zip W).foldl (fun s p => sha256Round p.1 p.2 s) h
  (h.zip s).map (fun p => w32 (p.1 + p.2))

/-- Split a word sequence into 16-word blocks. -/
def chunks16 (ws : List Nat) : List (List Nat) :=
  if hn : ws.length = 0 then [] else ws.take 16 :: chunks16 (ws.drop 16)
termination_by ws.length
decreasing_by simp [List.length_drop]; omega

/-- SHA-256 of a byte sequence, as the eight 32-bit words of the digest. -/
def sha256Words (msg : List Nat) : List Nat :=
  (chunks16 (bytesToWordsBE (padMessage msg))).foldl processBlock SHA256_H0

/-- UTF-8 encoding of one character. -/
def utf8EncodeChar (c : Char) : List Nat :=
  let v := c.toNat
  if v < 128 then [v]
  else if v < 2048 then [192 + v / 64, 128 + v % 64]
  else if v < 65536 then [224 + v / 4096, 128 + v / 64 % 64, 128 + v % 64]
  else [240 + v / 262144, 128 + v / 4096 % 64, 128 + v / 64 % 64, 128 + v % 64]

/-- UTF-8 bytes of a string. -/
def utf8Bytes (s : String) : List Nat := (s.data.map utf8EncodeChar).flatten

/-- The 256-bit digest of the UTF-8 bytes of `s`, interpreted as a big-endian
unsigned integer. -/
def sha256UTF8BE (s : String) : Nat :=
  (sha256Words (utf8Bytes s)).foldl (fun acc w => acc * 4294967296 + w) 0

def digitVal (c : Char) : Option Nat :=
  if c.isDigit then some (c.toNat - 48) else none

def parseDigitsAux : List Char → Nat → Option Nat
  | [], acc => some acc
  | c :: cs, acc =>
    match digitVal c with
    | some d => parseDigitsAux cs (10 * acc + d)
    | none => none

/-- One or more decimal digits. -/
def parseDigits (cs : List Char) : Option Nat :=
  match cs with
  | [] => none
  | _ => parseDigitsAux cs 0

/-- Modelled from the spec: base-10 integer parsing of the canonical string
(an optional sign followed by one or more decimal digits). -/
def parseBase10 (s : String) : Option Int :=
  match s.data with
  | [] => none
  | c :: rest =>
    if c = '-' then (parseDigits rest).map (fun n => -(n : Int))
    else if c = '+' then (parseDigits rest).map (fun n => (n : Int))
    else (parseDigits (c :: rest)).map (fun n => (n : Int))

/-- Modelled from the spec: the signature scheme magnitude bound on directly
encoded integers (the 32-bit bound of the reference system). -/
def I32_BOUND : Int := 2147483648

/-- Modelled from the spec: encode from messaging/util.py (not in scope).
The frozen two-branch rule of spec section 4.1: an integer-parseable
canonical string within the magnitude bound encodes as that integer, sign
preserved; anything else encodes as the 256-bit digest of the UTF-8 bytes of
the canonical string read as a big-endian unsigned integer. -/
def encode (value : String) : Int :=
  match parseBase10 value with
  | some n =>
      if -I32_BOUND ≤ n ∧ n < I32_BOUND then n else Int.ofNat (sha256UTF8BE value)
  | none => Int.ofNat (sha256UTF8BE value)

/-- The slice of a schema document this layer reads for ID derivation. -/
structure Schema where
  seqNo : Nat
deriving DecidableEq, Repr

/-- make_schema_id (indy.py line 38). -/
def make_schema_id (origin_did schema_name schema_version : String) : String :=
  origin_did ++ ":2:" ++ schema_name ++ ":" ++ schema_version

/-- make_credential_definition_id (indy.py line 71). -/
def make_credential_definition_id (origin_did : String) (schema : Schema)
    (signature_type : Option String) (tag : Option String) : String :=
  origin_did ++ ":3:" ++ orDefault signature_type DEFAULT_SIGNATURE_TYPE ++ ":"
    ++ toString schema.seqNo ++ ":" ++ orDefault tag DEFAULT_CRED_DEF_TAG

/-- One entry of the encoded credential values sent to the engine. -/
structure EncodedValue where
  raw : String
  encoded : Int
deriving DecidableEq, Repr

/-- One collaborator call performed by an issuer operation, with the payload
the claims need to inspect. -/
inductive EngineCall where
  | issuerCreateSchema
  | issuerCreateAndStoreCredentialDef (tag : String) (signature_type : String)
      (support_revocation : Bool)
  | issuerCreateCredentialOffer
  | issuerCreateCredential (encoded_values : List (String × EncodedValue))
      (revoc_reg_id : Option String) (tails_reader_handle : Option Int)
  | issuerRevokeCredential
  | openWriter
  | issuerCreateAndStoreRevocReg (max_cred_num : Nat) (issuance_type : String)
      (tails_writer : Nat)
deriving DecidableEq, Repr

/-- create_and_store_schema (indy.py line 44): one engine call inside the
IndyErrorHandler boundary. -/
def create_and_store_schema
    (engine_create_schema : Except IndyError (String × String)) :
    Except RaisedError (String × String) × List EngineCall :=
  match engine_create_schema with
  | .ok (schema_id, schema_json) =>
      (.ok (schema_id, schema_json), [.issuerCreateSchema])
  | .error error =>
      (.error (.issuer (wrap_error "Error when creating schema" error)),
       [.issuerCreateSchema])

/-- credential_definition_in_wallet (indy.py line 79): probes existence by
attempting offer creation and classifying the failure code. -/
def credential_definition_in_wallet
    (probe : Except IndyError String) :
    Except RaisedError Bool × List EngineCall :=
  match probe with
  | .ok _ => (.ok true, [.issuerCreateCredentialOffer])
  | .error error =>
    if ¬ (error.code = .CommonInvalidStructure ∨ error.code = .WalletItemNotFound)
    then
      (.error (.issuer (wrap_error
        "Error when checking wallet for credential definition" error)),
       [.issuerCreateCredentialOffer])
    else
      (.ok false, [.issuerCreateCredentialOffer])

/-- create_and_store_credential_definition (indy.py line 106).  The engine is
handed `tag or DEFAULT_CRED_DEF_TAG` and `signature_type or
DEFAULT_SIGNATURE_TYPE`; the call trace records the values passed. -/
def create_and_store_credential_definition
    (engine_create_cred_def : String → String → Bool →
      Except IndyError (String × String))
    (signature_type : Option String) (tag : Option String)
    (support_revocation : Bool) :
    Except RaisedError (String × String) × List EngineCall :=
  let tag_passed := orDefault tag DEFAULT_CRED_DEF_TAG
  let sig_passed := orDefault signature_type DEFAULT_SIGNATURE_TYPE
  let call := EngineCall.issuerCreateAndStoreCredentialDef tag_passed sig_passed
    support_revocation
  match engine_create_cred_def tag_passed sig_passed support_revocation with
  | .ok (credential_definition_id, credential_definition_json) =>
      (.ok (credential_definition_id, credential_definition_json), [call])
  | .error error =>
      (.error (.issuer (wrap_error
        "Error when creating credential definition" error)), [call])

/-- create_credential_offer (indy.py line 143). -/
def create_credential_offer
    (engine_create_offer : Except IndyError String) :
    Except RaisedError ParsedDoc × List EngineCall :=
  match engine_create_offer with
  | .ok credential_offer_json =>
      (.ok (jsonLoads credential_offer_json), [.issuerCreateCredentialOffer])
  | .error error =>
      (.error (.issuer (wrap_error
        "Exception when creating credential offer" error)),
       [.issuerCreateCredentialOffer])

/-- The validation/encoding loop of create_credential (indy.py lines
188-203): walk the schema attributes in order; a schema attribute absent from
credential_values raises IssuerError naming it; a present one is stored as
its raw string with its encoding. -/
def encodeValues (schema_attributes : List String)
    (credential_values : String → Option String) :
    Except IssuerErr (List (String × EncodedValue)) :=
  match schema_attributes with
  | [] => .ok []
  | attr_name :: rest =>
    match credential_values attr_name with
    | none =>
        .error (.IssuerError
          ("Provided credential values are missing a value for the schema attribute "
            ++ attr_name) none)
    | some credential_value =>
        (encodeValues rest credential_values).map
          (fun evs =>
            (attr_name,
              { raw := credential_value, encoded := encode credential_value })
              :: evs)

/-- create_credential (indy.py line 163).  The engine outcome is the result
of issuer_create_credential: on success a triple of credential JSON,
credential revocation id and revocation registry delta JSON; on failure an
IndyError, the registry-full code being caught first by its exception type.
The trace records the encoded values handed to the engine. -/
def create_credential
    (engine_issue : Except IndyError (String × Option String × String))
    (schema_attrNames : List String)
    (credential_values : String → Option String)
    (revoc_reg_id : Option String) (tails_reader_handle : Option Int) :
    Except RaisedError (ParsedDoc × Option String) × List EngineCall :=
  match encodeValues schema_attrNames credential_values with
  | .error e => (.error (.issuer e), [])
  | .ok encoded_values =>
    let call := EngineCall.issuerCreateCredential encoded_values revoc_reg_id
      tails_reader_handle
    match engine_issue with
    | .ok (credential_json, credential_revocation_id, _revoc_reg_delta_json) =>
        (.ok (jsonLoads credential_json, credential_revocation_id), [call])
    | .error error =>
      if error.code = .AnoncredsRevocationRegistryFullError then
        (.error (.issuer (.IssuerRevocationRegistryFullError
          "Revocation registry full" (some error))), [call])
      else
        (.error (.issuer (wrap_error "Error when issuing credential" error)),
         [call])

/-- revoke_credential (indy.py line 228). -/
def revoke_credential
    (engine_revoke : Except IndyError String) :
    Except RaisedError ParsedDoc × List EngineCall :=
  match engine_revoke with
  | .ok revoc_reg_delta_json =>
      (.ok (jsonLoads revoc_reg_delta_json), [.issuerRevokeCredential])
  | .error error =>
      (.error (.issuer (wrap_error "Exception when revoking credential" error)),
       [.issuerRevokeCredential])

/-- create_and_store_revocation_registry (indy.py line 250).  The tails
writer is opened first, OUTSIDE the IndyErrorHandler boundary, so a failure
there propagates untranslated and the engine is never invoked; only then is
the engine primitive called inside the boundary, receiving max_cred_num,
`issuance_type or DEFAULT_ISSUANCE_TYPE` and the writer handle. -/
def create_and_store_revocation_registry
    (open_writer : Except IndyError Nat)
    (engine_create_revoc_reg : Nat → Except IndyError (String × String × String))
    (max_cred_num : Nat) (issuance_type : Option String) :
    Except RaisedError (String × String × String) × List EngineCall :=
  match open_writer with
  | .error error => (.error (.indy error), [.openWriter])
  | .ok tails_writer =>
    let call := EngineCall.issuerCreateAndStoreRevocReg max_cred_num
      (orDefault issuance_type DEFAULT_ISSUANCE_TYPE) tails_writer
    match engine_create_revoc_reg tails_writer with
    | .ok (revoc_reg_id, revoc_reg_def_json, revoc_reg_entry_json) =>
        (.ok (revoc_reg_id, revoc_reg_def_json, revoc_reg_entry_json),
         [.openWriter, call])
    | .error error =>
        (.error (.issuer (wrap_error
          "Exception when creating revocation registry" error)),
         [.openWriter, call])

/-- A failure escaping an issuer operation is in the domain taxonomy
(IssuerError or its revocation-registry-full subtype) rather than a raw
engine error; a success trivially leaks nothing. -/
def escapesAsIssuerError {α : Type} : Except RaisedError α → Bool
  | .error (.issuer _) => true
  | .error (.indy _) => false
  | .ok _ => true

/-- The escaping failure is in the domain taxonomy and carries the given
collaborator failure (as explicit cause, or as the implicit exception
context of the registry-full raise). -/
def wrappedWithCause {α : Type} (cause : IndyError) :
    Except RaisedError α → Prop
  | .error (.issuer (.IssuerError _ c)) => c = some cause
  | .error (.issuer (.IssuerRevocationRegistryFullError _ c)) => c = some cause
  | _ => False

/-! ### Helper lemmas about the validation/encoding loop -/

theorem encodeValues_ok_of_all_present (attrs : List String)
    (values : String → Option String)
    (h : ∀ a ∈ attrs, values a ≠ none) :
    ∃ evs, encodeValues attrs values = .ok evs ∧
      evs.map Prod.fst = attrs ∧
      ∀ p ∈ evs, values p.1 = some p.2.raw ∧ p.2.encoded = encode p.2.raw := by
  induction attrs with
  | nil => exact ⟨[], rfl, rfl, by simp⟩
  | cons a rest ih =>
    have ha : values a ≠ none := h a (by simp)
    obtain ⟨v, hv⟩ : ∃ v, values a = some v := by
      cases hva : values a with
      | none => exact absurd hva ha
      | some v => exact ⟨v, rfl⟩
    obtain ⟨evs, he, hmap, hall⟩ := ih (fun b hb => h b (by simp [hb]))
    refine ⟨(a, ⟨v, encode v⟩) :: evs, ?_, ?_, ?_⟩
    · simp [encodeValues, hv, he, Except.map]
    · simp [hmap]
    · intro p hp
      rcases List.mem_cons.mp hp with hp | hp
      · subst hp; exact ⟨hv, rfl⟩
      · exact hall p hp

theorem encodeValues_first_missing (attrs : List String)
    (values : String → Option String)
    (h : ∃ a ∈ attrs, values a = none) :
    ∃ a, a ∈ attrs ∧ values a = none ∧
      encodeValues attrs values = .error (.IssuerError
        ("Provided credential values are missing a value for the schema attribute "
          ++ a) none) := by
  induction attrs with
  | nil => simp at h
  | cons b rest ih =>
    cases hb : values b with
    | none => exact ⟨b, by simp, hb, by simp [encodeValues, hb]⟩
    | some v =>
      have hr : ∃ a ∈ rest, values a = none := by
        obtain ⟨a, ha, hva⟩ := h
        rcases List.mem_cons.mp ha with rfl | ha
        · rw [hb] at hva; cases hva
        · exact ⟨a, ha, hva⟩
      obtain ⟨a, ha, hva, he⟩ := ih hr
      refine ⟨a, by simp [ha], hva, ?_⟩
      simp [encodeValues, hb, he, Except.map]

/-! ### Claim theorems -/

/-- C1: the encoder applies the frozen two-branch rule — a canonical string
parsing as a base-10 integer within the supported magnitude encodes as that
integer exactly, sign preserved (412 and -7 included), and any other string
encodes as the 256-bit SHA digest of its UTF-8 bytes read as a big-endian
unsigned integer — and during create_credential the stored encoded field of
every schema attribute is exactly encode of that attribute value. -/
theorem C1_encode_rule_and_stored_values
    (attrs : List String) (values : String → Option String)
    (hall : ∀ a ∈ attrs, values a ≠ none) :
    (∀ s n, parseBase10 s = some n → -I32_BOUND ≤ n ∧ n < I32_BOUND →
      encode s = n) ∧
    (∀ s n, parseBase10 s = some n → ¬(-I32_BOUND ≤ n ∧ n < I32_BOUND) →
      encode s = Int.ofNat (sha256UTF8BE s)) ∧
    (∀ s, parseBase10 s = none → encode s = Int.ofNat (sha256UTF8BE s)) ∧
    encode "412" = 412 ∧ encode "-7" = -7 ∧
    (∃ evs, encodeValues attrs values = .ok evs ∧
      ∀ p ∈ evs, values p.1 = some p.2.raw ∧ p.2.encoded = encode p.2.raw) := by
  refine ⟨?_, ?_, ?_, by decide, by decide, ?_⟩
  · intro s n hp hb; simp [encode, hp, hb]
  · intro s n hp hb; simp [encode, hp, hb]
  · intro s hp; simp [encode, hp]
  · obtain ⟨evs, he, _, hstored⟩ := encodeValues_ok_of_all_present attrs values hall
    exact ⟨evs, he, hstored⟩

theorem C1_witness :
    encode "412" = 412 ∧ encode "-7" = -7 ∧
    (∃ evs, encodeValues ["age"]
        (fun a => if a = "age" then some "412" else none) = .ok evs ∧
      ∀ p ∈ evs, (fun a => if a = "age" then some "412" else none) p.1
          = some p.2.raw ∧ p.2.encoded = encode p.2.raw) := by
  have h := C1_encode_rule_and_stored_values ["age"]
    (fun a => if a = "age" then some "412" else none)
    (by intro a ha; simp at ha; subst ha; simp)
  exact ⟨h.2.2.2.1, h.2.2.2.2.1, h.2.2.2.2.2⟩

/-- C2: whenever the provided credential values omit a schema attribute,
create_credential fails with an IssuerError naming the missing attribute and
performs no engine call at all (the call trace is empty). -/
theorem C2_missing_attribute_aborts
    (engine_issue : Except IndyError (String × Option String × String))
    (attrs : List String) (values : String → Option String)
    (revoc_reg_id : Option String) (tails_reader_handle : Option Int)
    (hmiss : ∃ a ∈ attrs, values a = none) :
    ∃ a, a ∈ attrs ∧ values a = none ∧
      create_credential engine_issue attrs values revoc_reg_id
          tails_reader_handle =
        (.error (.issuer (.IssuerError
          ("Provided credential values are missing a value for the schema attribute "
            ++ a) none)), []) := by
  obtain ⟨a, ha, hva, he⟩ := encodeValues_first_missing attrs values hmiss
  exact ⟨a, ha, hva, by simp [create_credential, he]⟩

theorem C2_witness :
    ∃ a, a ∈ ["name", "age"] ∧
      (fun x => if x = "name" then some "alice" else none) a = none ∧
      create_credential (.ok ("cred", none, "delta")) ["name", "age"]
          (fun x => if x = "name" then some "alice" else none) none none =
        (.error (.issuer (.IssuerError
          ("Provided credential values are missing a value for the schema attribute "
            ++ a) none)), []) :=
  C2_missing_attribute_aborts (.ok ("cred", none, "delta")) ["name", "age"]
    (fun x => if x = "name" then some "alice" else none) none none
    ⟨"age", by decide, by decide⟩

/-- C3: when the engine issuance primitive fails with the distinguished
registry-full code, create_credential raises
IssuerRevocationRegistryFullError, a constructor distinct from the generic
IssuerError; every other engine failure is raised as the generic IssuerError
carrying the original engine failure as its cause. -/
theorem C3_registry_full_distinguished
    (error : IndyError) (attrs : List String)
    (values : String → Option String)
    (revoc_reg_id : Option String) (tails_reader_handle : Option Int)
    (hall : ∀ a ∈ attrs, values a ≠ none) :
    (error.code = .AnoncredsRevocationRegistryFullError →
      (create_credential (.error error) attrs values revoc_reg_id
          tails_reader_handle).fst =
        .error (.issuer (.IssuerRevocationRegistryFullError
          "Revocation registry full" (some error))) ∧
      ∀ m c, (IssuerErr.IssuerRevocationRegistryFullError
          "Revocation registry full" (some error)) ≠ .IssuerError m c) ∧
    (error.code ≠ .AnoncredsRevocationRegistryFullError →
      (create_credential (.error error) attrs values revoc_reg_id
          tails_reader_handle).fst =
        .error (.issuer (.IssuerError "Error when issuing credential"
          (some error)))) := by
  obtain ⟨evs, he, -, -⟩ := encodeValues_ok_of_all_present attrs values hall
  constructor
  · intro hc
    refine ⟨by simp [create_credential, he, hc], ?_⟩
    intro m c
    simp
  · intro hc
    simp [create_credential, he, hc, wrap_error]

theorem C3_witness :
    (create_credential (.error ⟨.AnoncredsRevocationRegistryFullError⟩) ["a"]
        (fun x => if x = "a" then some "1" else none) none none).fst =
      .error (.issuer (.IssuerRevocationRegistryFullError
        "Revocation registry full"
        (some ⟨.AnoncredsRevocationRegistryFullError⟩))) :=
  ((C3_registry_full_distinguished ⟨.AnoncredsRevocationRegistryFullError⟩
    ["a"] (fun x => if x = "a" then some "1" else none) none none
    (by intro a ha; simp at ha; subst ha; simp)).1 rfl).1

/-- C4: the probe-based existence check returns false exactly when the offer
probe fails with CommonInvalidStructure or WalletItemNotFound, returns true
when the probe succeeds, and wraps any other engine failure as IssuerError
with the original failure as cause. -/
theorem C4_cred_def_in_wallet_classification (probe : Except IndyError String) :
    ((credential_definition_in_wallet probe).fst = .ok false ↔
      ∃ e, probe = .error e ∧
        (e.code = .CommonInvalidStructure ∨ e.code = .WalletItemNotFound)) ∧
    (∀ doc, probe = .ok doc →
      (credential_definition_in_wallet probe).fst = .ok true) ∧
    (∀ e, probe = .error e →
      ¬ (e.code = .CommonInvalidStructure ∨ e.code = .WalletItemNotFound) →
      (credential_definition_in_wallet probe).fst =
        .error (.issuer (.IssuerError
          "Error when checking wallet for credential definition" (some e)))) := by
  refine ⟨⟨?_, ?_⟩, ?_, ?_⟩
  · intro h
    cases probe with
    | ok d => simp [credential_definition_in_wallet] at h
    | error e =>
      by_cases hc :
          e.code = .CommonInvalidStructure ∨ e.code = .WalletItemNotFound
      · exact ⟨e, rfl, hc⟩
      · simp [credential_definition_in_wallet, hc] at h
  · rintro ⟨e, rfl, hc⟩
    simp [credential_definition_in_wallet, hc]
  · rintro doc rfl
    simp [credential_definition_in_wallet]
  · rintro e rfl hc
    simp [credential_definition_in_wallet, hc, wrap_error]

theorem C4_witness :
    (credential_definition_in_wallet (.error ⟨.WalletItemNotFound⟩)).fst
        = .ok false ∧
    (credential_definition_in_wallet (.ok "offer")).fst = .ok true ∧
    (credential_definition_in_wallet (.error ⟨.Other 3⟩)).fst =
      .error (.issuer (.IssuerError
        "Error when checking wallet for credential definition"
        (some ⟨.Other 3⟩))) :=
  ⟨(C4_cred_def_in_wallet_classification
      (.error ⟨.WalletItemNotFound⟩)).1.mpr
      ⟨⟨.WalletItemNotFound⟩, rfl, .inr rfl⟩,
   (C4_cred_def_in_wallet_classification (.ok "offer")).2.1 "offer" rfl,
   (C4_cred_def_in_wallet_classification (.error ⟨.Other 3⟩)).2.2
      ⟨.Other 3⟩ rfl (by decide)⟩

/-- C5 counterexample: a tails blob store failure while opening the tails
writer in create_and_store_revocation_registry escapes the issuer as the raw
engine error, not as IssuerError or a subtype — the open happens outside the
IndyErrorHandler translation boundary, refuting the claim that no
engine-specific error leaks on any call path. -/
theorem C5_counterexample_tails_open_leak :
    escapesAsIssuerError
      (create_and_store_revocation_registry (.error ⟨.Other 7⟩)
        (fun _ => .ok ("", "", "")) 5 none).fst = false ∧
    (create_and_store_revocation_registry (.error ⟨.Other 7⟩)
        (fun _ => .ok ("", "", "")) 5 none).fst =
      .error (.indy ⟨.Other 7⟩) :=
  ⟨rfl, rfl⟩

/-- C5 amended: every collaborator failure raised inside the translation
boundary escapes only as IssuerError or its registry-full subtype with the
original failure preserved — schema creation, credential definition
creation, offer creation, issuance (both the registry-full and the generic
branch), revocation, the existence probe, and registry creation after a
successful tails-writer open; the one exception is the tails-writer open
itself, which runs outside the boundary and propagates the collaborator
failure untranslated. -/
theorem C5_amended_translation_boundary :
    (∀ e, wrappedWithCause e (create_and_store_schema (.error e)).fst) ∧
    (∀ engine st tg sr e,
      engine (orDefault tg DEFAULT_CRED_DEF_TAG)
        (orDefault st DEFAULT_SIGNATURE_TYPE) sr = .error e →
      wrappedWithCause e
        (create_and_store_credential_definition engine st tg sr).fst) ∧
    (∀ e, wrappedWithCause e (create_credential_offer (.error e)).fst) ∧
    (∀ e attrs values r t, (∀ a ∈ attrs, values a ≠ none) →
      wrappedWithCause e (create_credential (.error e) attrs values r t).fst) ∧
    (∀ e, wrappedWithCause e (revoke_credential (.error e)).fst) ∧
    (∀ e, ¬ (e.code = .CommonInvalidStructure ∨ e.code = .WalletItemNotFound) →
      wrappedWithCause e (credential_definition_in_wallet (.error e)).fst) ∧
    (∀ w engine m i e, engine w = .error e →
      wrappedWithCause e
        (create_and_store_revocation_registry (.ok w) engine m i).fst) ∧
    (∀ e engine m i,
      (create_and_store_revocation_registry (.error e) engine m i).fst =
        .error (.indy e)) := by
  refine ⟨?_, ?_, ?_, ?_, ?_, ?_, ?_, ?_⟩
  · intro e; simp [create_and_store_schema, wrap_error, wrappedWithCause]
  · intro engine st tg sr e he
    simp [create_and_store_credential_definition, he, wrap_error,
      wrappedWithCause]
  · intro e; simp [create_credential_offer, wrap_error, wrappedWithCause]
  · intro e attrs values r t hall
    obtain ⟨evs, he, -, -⟩ := encodeValues_ok_of_all_present attrs values hall
    by_cases hc : e.code = .AnoncredsRevocationRegistryFullError
    · simp [create_credential, he, hc, wrappedWithCause]
    · simp [create_credential, he, hc, wrap_error, wrappedWithCause]
  · intro e; simp [revoke_credential, wrap_error, wrappedWithCause]
  · intro e hc
    simp [credential_definition_in_wallet, hc, wrap_error, wrappedWithCause]
  · intro w engine m i e he
    simp [create_and_store_revocation_registry, he, wrap_error,
      wrappedWithCause]
  · intro e engine m i
    simp [create_and_store_revocation_registry]

theorem C5_witness :
    wrappedWithCause ⟨.Other 2⟩
      (create_credential (.error ⟨.Other 2⟩) ["a"]
        (fun x => if x = "a" then some "1" else none) none none).fst :=
  C5_amended_translation_boundary.2.2.2.1 ⟨.Other 2⟩ ["a"]
    (fun x => if x = "a" then some "1" else none) none none
    (by intro a ha; simp at ha; subst ha; simp)

/-- C7: make_schema_id produces originDid:2:name:version,
make_credential_definition_id produces originDid:3:signatureType:seqNo:tag
(including the spec test vectors), and when signature type or tag are
omitted the deriver substitutes exactly the default values that
create_and_store_credential_definition passes to the engine. -/
theorem C7_id_derivation (origin_did schema_name schema_version : String)
    (schema : Schema) (signature_type tag : Option String) :
    make_schema_id origin_did schema_name schema_version =
      origin_did ++ ":2:" ++ schema_name ++ ":" ++ schema_version ∧
    make_credential_definition_id origin_did schema signature_type tag =
      origin_did ++ ":3:" ++ orDefault signature_type DEFAULT_SIGNATURE_TYPE
        ++ ":" ++ toString schema.seqNo ++ ":"
        ++ orDefault tag DEFAULT_CRED_DEF_TAG ∧
    make_schema_id "did:x" "name" "1.0" = "did:x:2:name:1.0" ∧
    make_credential_definition_id "did:x" ⟨15⟩ (some "CL") (some "tag1") =
      "did:x:3:CL:15:tag1" ∧
    (∀ engine sr,
      (create_and_store_credential_definition engine none none sr).snd =
        [.issuerCreateAndStoreCredentialDef DEFAULT_CRED_DEF_TAG
          DEFAULT_SIGNATURE_TYPE sr]) ∧
    make_credential_definition_id origin_did schema none none =
      origin_did ++ ":3:" ++ DEFAULT_SIGNATURE_TYPE ++ ":"
        ++ toString schema.seqNo ++ ":" ++ DEFAULT_CRED_DEF_TAG := by
  refine ⟨rfl, rfl, by decide, by decide, ?_, rfl⟩
  intro engine sr
  simp only [create_and_store_credential_definition, orDefault]
  cases engine DEFAULT_CRED_DEF_TAG DEFAULT_SIGNATURE_TYPE sr with
  | ok r => cases r; rfl
  | error e => rfl

theorem C7_witness :
    make_schema_id "did:x" "name" "1.0" = "did:x:2:name:1.0" ∧
    make_credential_definition_id "did:x" ⟨15⟩ (some "CL") (some "tag1") =
      "did:x:3:CL:15:tag1" :=
  ⟨(C7_id_derivation "did:x" "name" "1.0" ⟨15⟩ (some "CL")
      (some "tag1")).2.2.1,
   (C7_id_derivation "did:x" "name" "1.0" ⟨15⟩ (some "CL")
      (some "tag1")).2.2.2.1⟩

/-- C8: with every schema attribute supplied, extra keys in the credential
values do not block issuance and are absent from the encoded values handed
to the engine — the signed attribute names are exactly the schema attribute
names. -/
theorem C8_extra_keys_dropped
    (attrs : List String) (values : String → Option String)
    (credential_json : String) (credential_revocation_id : Option String)
    (revoc_reg_delta_json : String)
    (revoc_reg_id : Option String) (tails_reader_handle : Option Int)
    (hall : ∀ a ∈ attrs, values a ≠ none)
    (hextra : ∃ k, values k ≠ none ∧ k ∉ attrs) :
    (create_credential
        (.ok (credential_json, credential_revocation_id, revoc_reg_delta_json))
        attrs values revoc_reg_id tails_reader_handle).fst =
      .ok (jsonLoads credential_json, credential_revocation_id) ∧
    ∃ evs,
      (create_credential
          (.ok (credential_json, credential_revocation_id,
            revoc_reg_delta_json))
          attrs values revoc_reg_id tails_reader_handle).snd =
        [.issuerCreateCredential evs revoc_reg_id tails_reader_handle] ∧
      evs.map Prod.fst = attrs ∧
      ∀ k, k ∉ attrs → k ∉ evs.map Prod.fst := by
  obtain ⟨evs, he, hmap, -⟩ := encodeValues_ok_of_all_present attrs values hall
  refine ⟨by simp [create_credential, he], evs,
    by simp [create_credential, he], hmap, ?_⟩
  intro k hk
  rw [hmap]
  exact hk

theorem C8_witness :
    (create_credential (.ok ("cred", some "7", "delta")) ["a"]
        (fun x => if x = "a" then some "1"
          else if x = "extra" then some "2" else none) none none).fst =
      .ok (jsonLoads "cred", some "7") ∧
    ∃ evs,
      (create_credential (.ok ("cred", some "7", "delta")) ["a"]
          (fun x => if x = "a" then some "1"
            else if x = "extra" then some "2" else none) none none).snd =
        [.issuerCreateCredential evs none none] ∧
      evs.map Prod.fst = ["a"] ∧
      ∀ k, k ∉ ["a"] → k ∉ evs.map Prod.fst :=
  C8_extra_keys_dropped ["a"]
    (fun x => if x = "a" then some "1"
      else if x = "extra" then some "2" else none)
    "cred" (some "7") "delta" none none
    (by intro a ha; simp at ha; subst ha; simp)
    ⟨"extra", by decide, by decide⟩

/-- C9: the tails writer is opened before the engine registry-creation
primitive runs; a failed open propagates immediately with no engine call in
the trace; and a registry ID is only returned when the engine call itself
succeeded. -/
theorem C9_tails_writer_before_engine
    (engine : Nat → Except IndyError (String × String × String))
    (max_cred_num : Nat) (issuance_type : Option String) :
    (∀ e, create_and_store_revocation_registry (.error e) engine max_cred_num
        issuance_type = (.error (.indy e), [.openWriter])) ∧
    (∀ w, (create_and_store_revocation_registry (.ok w) engine max_cred_num
        issuance_type).snd =
      [.openWriter, .issuerCreateAndStoreRevocReg max_cred_num
        (orDefault issuance_type DEFAULT_ISSUANCE_TYPE) w]) ∧
    (∀ ow r, (create_and_store_revocation_registry ow engine max_cred_num
        issuance_type).fst = .ok r → ∃ w, ow = .ok w ∧ engine w = .ok r) := by
  refine ⟨fun e => rfl, ?_, ?_⟩
  · intro w
    cases hw : engine w with
    | ok r => cases r with | mk a bc => cases bc; simp [create_and_store_revocation_registry, hw]
    | error e => simp [create_and_store_revocation_registry, hw]
  · intro ow r hr
    cases ow with
    | error e => simp [create_and_store_revocation_registry] at hr
    | ok w =>
      refine ⟨w, rfl, ?_⟩
      cases hw : engine w with
      | ok out =>
        cases out with
        | mk a bc =>
          cases bc
          simp [create_and_store_revocation_registry, hw] at hr
          simp [hr]
      | error e => simp [create_and_store_revocation_registry, hw] at hr

theorem C9_witness :
    create_and_store_revocation_registry (.error ⟨.Other 9⟩)
        (fun _ => .ok ("rid", "def", "entry")) 10 none =
      (.error (.indy ⟨.Other 9⟩), [.openWriter]) :=
  (C9_tails_writer_before_engine (fun _ => .ok ("rid", "def", "entry")) 10
    none).1 ⟨.Other 9⟩

/-- C10: on successful issuance create_credential returns exactly the parsed
credential document paired with the credential revocation id; the revocation
registry delta also returned by the engine is discarded — the entire
observable behaviour of the call is independent of it. -/
theorem C10_delta_discarded
    (attrs : List String) (values : String → Option String)
    (credential_json : String) (credential_revocation_id : Option String)
    (revoc_reg_id : Option String) (tails_reader_handle : Option Int)
    (hall : ∀ a ∈ attrs, values a ≠ none) :
    ∀ delta1 delta2,
      (create_credential
          (.ok (credential_json, credential_revocation_id, delta1))
          attrs values revoc_reg_id tails_reader_handle).fst =
        .ok (jsonLoads credential_json, credential_revocation_id) ∧
      create_credential
          (.ok (credential_json, credential_revocation_id, delta1))
          attrs values revoc_reg_id tails_reader_handle =
        create_credential
          (.ok (credential_json, credential_revocation_id, delta2))
          attrs values revoc_reg_id tails_reader_handle := by
  obtain ⟨evs, he, -, -⟩ := encodeValues_ok_of_all_present attrs values hall
  intro delta1 delta2
  exact ⟨by simp [create_credential, he], by simp [create_credential, he]⟩

theorem C10_witness :
    (create_credential (.ok ("cred", some "3", "deltaA")) ["a"]
        (fun x => if x = "a" then some "1" else none) none none).fst =
      .ok (jsonLoads "cred", some "3") ∧
    create_credential (.ok ("cred", some "3", "deltaA")) ["a"]
        (fun x => if x = "a" then some "1" else none) none none =
      create_credential (.ok ("cred", some "3", "deltaB")) ["a"]
        (fun x => if x = "a" then some "1" else none) none none :=
  C10_delta_discarded ["a"] (fun x => if x = "a" then some "1" else none)
    "cred" (some "3") none none
    (by intro a ha; simp at ha; subst ha; simp) "deltaA" "deltaB"

end IndyIssuer
